import Mathlib

/-!
Verification of the mpegi MPEG-audio metadata reader.

This file gives a shallow embedding, in Lean, of the parts of the mpegi
source that the checked properties are about:

* `src/mpegi/utils.py` : `check_signature`, `rm_unsync`, and the synchsafe
  size / frame-sync logic inside `frame_header`;
* `src/mpegi/frames.py` : `Tag.get_v2` (header-flag handling and the
  sub-record walking loop) and `Frames.__init__`;
* `src/mpegi/metadata.py` : the `Frames` class (identifier dispatch through
  `MAP`, the `_comm`/`_uslt` printable-text pass, the "Not Implemented"
  markers) and the `Metadata` frame-header helpers.

Bytes are modelled as natural numbers (callers supply values < 256 where it
matters); byte strings are `List Nat`.  Python exceptions are modelled by
explicit failure constructors, and Python's bit operators map to `&&&`,
`|||`, `<<<`, `>>>` on `Nat`.  Where the repository ships only a stub for a
method that the specification describes (the `Metadata` bitrate /
sample-rate / frame-length resolution), the definition is modelled from the
specification text and says so in its doc string.
-/

namespace Mpegi

/-! ## Byte-field codec (src/mpegi/utils.py, src/mpegi/metadata.py) -/

/-- The synchsafe 4-byte size decode, as written (inline) in
`frame_header` (src/mpegi/utils.py lines 67-72) and in `Tag.content_v2`
(src/mpegi/metadata.py lines 267-272):
`(b0 & 0x7F) << 21 | (b1 & 0x7F) << 14 | (b2 & 0x7F) << 7 | (b3 & 0x7F)`. -/
def decode_synchsafe_size (b0 b1 b2 b3 : Nat) : Nat :=
  ((b0 &&& 0x7F) <<< 21) ||| ((b1 &&& 0x7F) <<< 14) ||| ((b2 &&& 0x7F) <<< 7) ||| (b3 &&& 0x7F)

/-- `rm_unsync` (src/mpegi/utils.py line 44): `body.replace(b"\xFF\x00", b"\xFF")`.
Python's `replace` scans left to right over non-overlapping occurrences. -/
def rm_unsync : List Nat → List Nat
  | 255 :: 0 :: rest => 255 :: rm_unsync rest
  | b :: rest => b :: rm_unsync rest
  | [] => []

/-! ## File signature check (src/mpegi/utils.py `check_signature`) -/

/-- Python `needle == hay[:len(needle)]` used to build substring search. -/
def leadMatch : List Nat → List Nat → Bool
  | [], _ => true
  | _ :: _, [] => false
  | a :: as, b :: bs => a == b && leadMatch as bs

/-- Python's `needle in hay` on byte strings: contiguous substring test. -/
def containsSub (needle : List Nat) : List Nat → Bool
  | [] => leadMatch needle []
  | l@(_ :: rest) => leadMatch needle l || containsSub needle rest

/-- The stored signature list `VALID_ISO` of `check_signature`
(src/mpegi/utils.py lines 15-20). -/
def VALID_ISO : List (List Nat) :=
  [[0x49, 0x44, 0x33], [0xFF, 0xFB], [0xFF, 0xF3], [0xFF, 0xF2]]

/-- `check_signature` (src/mpegi/utils.py lines 5-25): read the first 3
bytes of the file and test `any(signature in s for s in VALID_ISO)`. -/
def check_signature (file : List Nat) : Bool :=
  VALID_ISO.any (fun s => containsSub (file.take 3) s)

/-! ## Frame sync detection (src/mpegi/utils.py `frame_header`, lines 82-91) -/

/-- Result of the sync-detection step of `frame_header`: the 11-bit branch,
the (intended) 12-bit branch, or the raised `Exception`. -/
inductive SyncResult : Type
  | sync11 (v : Nat)
  | sync12 (v : Nat)
  | noSync
  deriving DecidableEq, Repr

/-- Sync detection from `frame_header` (src/mpegi/utils.py lines 82-91):
`sync12 = header[0] << 4 | header[1] >> 4`, `sync11 = header[0] << 3 |
header[1] >> 5`; the 11-bit test `sync11 & 0x7FF == 0x7FF` is tried first,
then the 12-bit test `sync12 & 0xFFE == 0xFFE`, else an exception. -/
def frame_sync (h0 h1 : Nat) : SyncResult :=
  let sync12 := (h0 <<< 4) ||| (h1 >>> 4)
  let sync11 := (h0 <<< 3) ||| (h1 >>> 5)
  if sync11 &&& 0x7FF = 0x7FF then .sync11 sync11
  else if sync12 &&& 0xFFE = 0xFFE then .sync12 sync12
  else .noSync

/-- Whether the detection selected the 12-bit branch. -/
def syncIs12 : SyncResult → Bool
  | .sync12 _ => true
  | _ => false

/-- Spec-side view: the 4 header bytes as one 32-bit big-endian word. -/
def header32 (h0 h1 h2 h3 : Nat) : Nat :=
  h0 * 2 ^ 24 + h1 * 2 ^ 16 + h2 * 2 ^ 8 + h3

/-- Spec-side view: the top 11 bits of the 32-bit header word. -/
def top11val (h0 h1 h2 h3 : Nat) : Nat := header32 h0 h1 h2 h3 / 2 ^ 21

/-- Spec-side view: the top 12 bits of the 32-bit header word. -/
def top12val (h0 h1 h2 h3 : Nat) : Nat := header32 h0 h1 h2 h3 / 2 ^ 20

/-! ## Printable-text pass of the COMM / USLT decoders
(src/mpegi/metadata.py lines 463-465 and 1139-1141; identical code in
src/mpegi/frames.py lines 365-367 and 419-421).  The source is
`"".join([char if 32 <= ord(char) <= 126 else char for char in ftext])`;
note both branches of the conditional produce the same character. -/

/-- The per-character pass over the decoded body text, on code points. -/
def printable_pass (s : List Nat) : List Nat :=
  s.map (fun c => if 32 ≤ c ∧ c ≤ 126 then c else c)

/-! ## The sub-record walking loop of `Tag.get_v2`
(src/mpegi/frames.py lines 196-227; the loop in `Tag.content_v2`,
src/mpegi/metadata.py lines 279-311, is byte-for-byte the same walk). -/

/-- Python `int.from_bytes(bs, byteorder="big")`. -/
def fromBytesBE (bs : List Nat) : Nat :=
  bs.foldl (fun acc b => acc * 256 + b) 0

/-- Outcome of the walking loop.  `finished ds` is a normal exit (break on
a short trailing header or end of body); `aborted ds` models the
`UnicodeDecodeError` that `frame_header[:4].decode("ascii")` raises on a
byte ≥ 128.  In both cases `ds` lists, in order, the `(frame_id,
frame_body)` pairs the loop passed to the `Frames` constructor. -/
inductive WalkOut : Type
  | aborted (dispatched : List (List Nat × List Nat))
  | finished (dispatched : List (List Nat × List Nat))
  deriving DecidableEq, Repr

/-- The `(frame_id, frame_body)` pairs of either outcome. -/
def WalkOut.dispatched : WalkOut → List (List Nat × List Nat)
  | .aborted ds => ds
  | .finished ds => ds

/-- The walk over `tag_body` starting at `idx`:
`while idx < len(tag_body)`: slice a 10-byte record header (break if fewer
than 10 bytes remain); ASCII-decode the 4-byte identifier; read the 4-byte
big-endian declared size; a zero size advances by 10 and continues; an
empty body slice advances by 10+size and continues; otherwise the
`(frame_id, frame_body)` pair is dispatched and the walk advances by
10+size. -/
def walkFrames (tagBody : List Nat) (idx : Nat) : WalkOut :=
  if _h : idx < tagBody.length then
    let frameHeader := (tagBody.drop idx).take 10
    if frameHeader.length < 10 then .finished []
    else if (frameHeader.take 4).any (fun b => decide (128 ≤ b)) then .aborted []
    else
      let frameSize := fromBytesBE ((frameHeader.drop 4).take 4)
      if frameSize = 0 then walkFrames tagBody (idx + 10)
      else
        let frameBody := (tagBody.drop (idx + 10)).take frameSize
        if frameBody = [] then walkFrames tagBody (idx + 10 + frameSize)
        else
          match walkFrames tagBody (idx + 10 + frameSize) with
          | .aborted ds => .aborted ((frameHeader.take 4, frameBody) :: ds)
          | .finished ds => .finished ((frameHeader.take 4, frameBody) :: ds)
  else .finished []
termination_by tagBody.length - idx
decreasing_by all_goals omega

/-- One iteration of the same loop, reporting where the index moves:
`none` when the loop exits (index past the body, short trailing header, or
the ASCII decode exception), `some n` when the iteration continues with
index `n`. -/
def walkNext (tagBody : List Nat) (idx : Nat) : Option Nat :=
  if idx < tagBody.length then
    let frameHeader := (tagBody.drop idx).take 10
    if frameHeader.length < 10 then none
    else if (frameHeader.take 4).any (fun b => decide (128 ≤ b)) then none
    else
      let frameSize := fromBytesBE ((frameHeader.drop 4).take 4)
      if frameSize = 0 then some (idx + 10)
      else some (idx + 10 + frameSize)
  else none

/-- `Frames.__init__` (src/mpegi/frames.py lines 238-244, likewise
src/mpegi/metadata.py lines 417-422): `self.encoding = body[0]`,
`self.body = body[1:]`.  `body[0]` on an empty body raises `IndexError`,
modelled as `none`. -/
def framesInit (body : List Nat) : Option (Nat × List Nat) :=
  match body with
  | [] => none
  | e :: rest => some (e, rest)

/-! ## `Tag.get_v2` header handling (src/mpegi/frames.py lines 130-228;
`Tag.content_v2`, src/mpegi/metadata.py lines 207-313, handles the header
identically).  The function is modelled on the destructured bytes of the
10-byte tag header (`stream[3]`, `stream[4]`, `stream[5]`,
`stream[6..9]`) plus the remaining stream contents. -/

/-- Return shape of `get_v2`.  `unsupported` is the early return for major
version ≥ 5; `extHeader` is the bare string `"Extended Header"` returned
when the extended-header flag bit is set; `flagsNotCleared` is the early
return when one of the four undefined flag bits is set; `raised` models
the ASCII decode exception escaping the walk; `tag` is the full result,
carrying the dispatched sub-records. -/
inductive V2Out : Type
  | unsupported (major minor : Nat)
  | extHeader
  | flagsNotCleared (major minor flags : Nat)
  | raised (dispatched : List (List Nat × List Nat))
  | tag (major minor flags : Nat) (frames : List (List Nat × List Nat))
  deriving DecidableEq, Repr

/-- Whether a `get_v2` result carries the decoded header fields
(identifier/version/flags); the bare `"Extended Header"` string and the
escaped exception carry none. -/
def v2CarriesFields : V2Out → Bool
  | .unsupported _ _ => true
  | .flagsNotCleared _ _ _ => true
  | .tag _ _ _ _ => true
  | .extHeader => false
  | .raised _ => false

/-- `Tag.get_v2` on header bytes `vMajor = stream[3]`, `vMinor = stream[4]`,
`flags = stream[5]`, `s6..s9 = stream[6..9]`, with `rest` the stream
contents after the 10-byte header:
if `stream[3] >= 5` return the partial metadata; compute the flag bits; if
the extended-header bit is set return the string `"Extended Header"`; if
any of the four undefined flag bits is set return the metadata marked
`"NOT CLEARED"`; otherwise synchsafe-decode the size, read that many body
bytes, remove unsynchronisation when flagged, and walk the sub-records. -/
def get_v2 (vMajor vMinor flags s6 s7 s8 s9 : Nat) (rest : List Nat) : V2Out :=
  if 5 ≤ vMajor then .unsupported vMajor vMinor
  else
    let unsynchronisation := (flags &&& 0b10000000) >>> 7
    let extendedHeader := (flags &&& 0b01000000) >>> 6
    if extendedHeader = 1 then .extHeader
    else if (flags &&& 0b00001000) >>> 3 = 1 ∨ (flags &&& 0b00000100) >>> 2 = 1 ∨
            (flags &&& 0b00000010) >>> 1 = 1 ∨ (flags &&& 0b00000001) >>> 0 = 1 then
      .flagsNotCleared vMajor vMinor flags
    else
      let size := decode_synchsafe_size s6 s7 s8 s9
      let body0 := rest.take size
      let tagBody := if unsynchronisation = 1 then rm_unsync body0 else body0
      match walkFrames tagBody 0 with
      | .aborted ds => .raised ds
      | .finished ds => .tag vMajor vMinor flags ds

/-! ## Per-identifier dispatch of `Frames.process_frame`
(src/mpegi/metadata.py lines 331-430). -/

/-- The `Frames.MAP` table (src/mpegi/metadata.py lines 331-415):
identifier → (category label, handler method name). -/
def MAP : List (String × String × String) :=
  [("COMM", "COMMENTS", "_comm"),
   ("TIT1", "TEXT_INFORMATION_FRAMES", "_tit1"),
   ("TIT2", "TEXT_INFORMATION_FRAMES", "_tit2"),
   ("TIT3", "TEXT_INFORMATION_FRAMES", "_tit3"),
   ("TALB", "TEXT_INFORMATION_FRAMES", "_talb"),
   ("TOAL", "TEXT_INFORMATION_FRAMES", "_toal"),
   ("TRCK", "TEXT_INFORMATION_FRAMES", "_trck"),
   ("TPOS", "TEXT_INFORMATION_FRAMES", "_tpos"),
   ("TSST", "TEXT_INFORMATION_FRAMES", "_tsst"),
   ("TSRC", "TEXT_INFORMATION_FRAMES", "_tsrc"),
   ("TPE1", "INVOLVED_PERSONS_FRAMES", "_tpe1"),
   ("TPE2", "INVOLVED_PERSONS_FRAMES", "_tpe2"),
   ("TPE3", "INVOLVED_PERSONS_FRAMES", "_tpe3"),
   ("TPE4", "INVOLVED_PERSONS_FRAMES", "_tpe4"),
   ("TOPE", "INVOLVED_PERSONS_FRAMES", "_tope"),
   ("TEXT", "INVOLVED_PERSONS_FRAMES", "_text"),
   ("TOLY", "INVOLVED_PERSONS_FRAMES", "_toly"),
   ("TCOM", "INVOLVED_PERSONS_FRAMES", "_tcom"),
   ("TMCL", "INVOLVED_PERSONS_FRAMES", "_tmcl"),
   ("TIPL", "INVOLVED_PERSONS_FRAMES", "_tipl"),
   ("TENC", "INVOLVED_PERSONS_FRAMES", "_tenc"),
   ("TBPM", "DERIVED_SUBJECTIVE_PROPERTIES_FRAMES", "_tbpm"),
   ("TLEN", "DERIVED_SUBJECTIVE_PROPERTIES_FRAMES", "_tlen"),
   ("TKEY", "DERIVED_SUBJECTIVE_PROPERTIES_FRAMES", "_tkey"),
   ("TLAN", "DERIVED_SUBJECTIVE_PROPERTIES_FRAMES", "_tlan"),
   ("TCON", "DERIVED_SUBJECTIVE_PROPERTIES_FRAMES", "_tcon"),
   ("TFLT", "DERIVED_SUBJECTIVE_PROPERTIES_FRAMES", "_tflt"),
   ("TMED", "DERIVED_SUBJECTIVE_PROPERTIES_FRAMES", "_tmed"),
   ("TMOO", "DERIVED_SUBJECTIVE_PROPERTIES_FRAMES", "_tmoo"),
   ("TCOP", "RIGHTS_LICENSE_FRAMES", "_tcop"),
   ("TPRO", "RIGHTS_LICENSE_FRAMES", "_tpro"),
   ("TPUB", "RIGHTS_LICENSE_FRAMES", "_tpub"),
   ("TOWN", "RIGHTS_LICENSE_FRAMES", "_town"),
   ("TRSN", "RIGHTS_LICENSE_FRAMES", "_trsn"),
   ("TRSO", "RIGHTS_LICENSE_FRAMES", "_trso"),
   ("TOFN", "OTHER_TEXT_FRAMES", "_tofn"),
   ("TDLY", "OTHER_TEXT_FRAMES", "_tdly"),
   ("TDEN", "OTHER_TEXT_FRAMES", "_tden"),
   ("TDOR", "OTHER_TEXT_FRAMES", "_tdor"),
   ("TDRC", "OTHER_TEXT_FRAMES", "_tdrc"),
   ("TYER", "OTHER_TEXT_FRAMES", "_tyer"),
   ("TDRL", "OTHER_TEXT_FRAMES", "_tdrl"),
   ("TDTG", "OTHER_TEXT_FRAMES", "_tdtg"),
   ("TSSE", "OTHER_TEXT_FRAMES", "_tsse"),
   ("TSOA", "OTHER_TEXT_FRAMES", "_tsoa"),
   ("TSOP", "OTHER_TEXT_FRAMES", "_tsop"),
   ("TSOT", "OTHER_TEXT_FRAMES", "_tsot"),
   ("TXXX", "USER_DEFINED_INFORMATION_FRAME", "_txxx"),
   ("WCOM", "URL_LINK_FRAMES", "_wcom"),
   ("WCOP", "URL_LINK_FRAMES", "_wcop"),
   ("WOAF", "URL_LINK_FRAMES", "_woaf"),
   ("WOAR", "URL_LINK_FRAMES", "_woar"),
   ("WOAS", "URL_LINK_FRAMES", "_woas"),
   ("WORS", "URL_LINK_FRAMES", "_wors"),
   ("WPAY", "URL_LINK_FRAMES", "_wpay"),
   ("WPUB", "URL_LINK_FRAMES", "_wpub"),
   ("WXXX", "USER_DEFINED_URL_FRAME", "_wxxx"),
   ("MCDI", "MUSIC_CD_IDENTIFIER", "_mcdi"),
   ("ETCO", "EVENT_TIMING_CODES", "_etco"),
   ("MLLT", "MPEG_LOCATION_LOOKUP_TABLE", "_mllt"),
   ("SYTC", "SYNCHRONISED_TEMPO_CODES", "_sytc"),
   ("USLT", "UNSYNCRHONISED_LYRICS_TEXT_TRANSCRIPTION", "_uslt"),
   ("SYLT", "SYNCHRONIZED_LYRICS_TEXT_TRANSCRIPTION", "_sylt"),
   ("RVA2", "RELATIVE_VOLUME_ADJUSTMENT", "_rva2"),
   ("EQU2", "EQUALISATION", "_equ2"),
   ("RVRB", "REVERB", "_rvrb"),
   ("APIC", "ATTACHED_PICTURE", "_apic"),
   ("GEOB", "GENERAL_ENCAPSULATED_OBJECT", "_geob"),
   ("PCNT", "PLAY_COUNTER", "_pcnt"),
   ("POPM", "POPULARIMETER", "_popm"),
   ("RBUF", "RECOMMENDED_BUFFER_SIZE", "_rbuf"),
   ("AENC", "AUDIO_ENCRYPTION", "_aenc"),
   ("LINK", "LINKED_INFORMATION", "_link"),
   ("POSS", "POSITION_SYNCHRONIZATION_FRAME", "_poss"),
   ("USER", "TERMS_OF_USE_FRAME", "_user"),
   ("OWNE", "OWNERSHIP_FRAME", "_owne"),
   ("COMR", "COMMERCIAL_FRAME", "_comr"),
   ("ENCR", "ENCYRPTION_METHOD_REGISTRATION", "_encr"),
   ("GRID", "GROUP_IDENTIFICATION_REGISTRATION", "_grid"),
   ("PRIV", "PRIVATE_FRAME", "_priv"),
   ("SIGN", "SIGNATURE_FRAME", "_sign"),
   ("SEEK", "SEEK_FRAME", "_seek"),
   ("ASPI", "AUDIO_SEEK_POINT_INDEX", "_aspi")]

/-- The method names actually defined on `Frames` in src/mpegi/metadata.py
(what `hasattr(self, m)` can find); note `_etoc` (line 1094) and `_tfon`
(line 851), which do not match the `MAP` entries `_etco` and `_tofn`. -/
def definedMethods : List String :=
  ["_encode", "_comm", "_tit1", "_tit2", "_tit3", "_talb", "_toal", "_trck",
   "_tpos", "_tsst", "_tsrc", "_tpe1", "_tpe2", "_tpe3", "_tpe4", "_tope",
   "_text", "_toly", "_tcom", "_tmcl", "_tipl", "_tenc", "_tbpm", "_tlen",
   "_tkey", "_tlan", "_tcon", "_tflt", "_tmed", "_tmoo", "_tcop", "_tpro",
   "_tpub", "_town", "_trsn", "_trso", "_tfon", "_tdly", "_tden", "_tdor",
   "_tdrc", "_tyer", "_tdrl", "_tdtg", "_tsse", "_tsoa", "_tsop", "_tsot",
   "_txxx", "_wcom", "_wcop", "_woaf", "_woar", "_woas", "_wors", "_wpay",
   "_wpub", "_wxxx", "_mcdi", "_etoc", "_mllt", "_sytc", "_uslt", "_sylt",
   "_apic"]

/-- Outcome of `process_frame` at the granularity the dispatch claims need:
`absent` is Python `None` (identifier not in `MAP`, or `hasattr` fails);
`notImplemented` is the literal string `"Not Implemented"`; `raised` models
an `IndexError` inside a handler; `decoded m` stands for the dictionary a
fully implemented handler `m` returns (its contents are modelled
elsewhere / not needed here). -/
inductive FrameOutcome : Type
  | absent
  | notImplemented
  | raised
  | decoded (method : String)
  deriving DecidableEq, Repr

/-- Calling handler `m` on the full record body (the byte string handed to
the `Frames` constructor).  `_etoc` and `_mllt` return `"Not Implemented"`
outright; `_sytc` reads `self.body[0]` and `self.body[1]` (so it raises
unless the full body has ≥ 3 bytes) before returning `"Not Implemented"`;
`_sylt` reads up to `self.body[4]` (full body ≥ 6 bytes) before returning
`"Not Implemented"`.  Every other defined handler builds and returns its
dictionary. -/
def invokeMethod (m : String) (fullBody : List Nat) : FrameOutcome :=
  if m = "_etoc" ∨ m = "_mllt" then .notImplemented
  else if m = "_sytc" then (if 3 ≤ fullBody.length then .notImplemented else .raised)
  else if m = "_sylt" then (if 6 ≤ fullBody.length then .notImplemented else .raised)
  else .decoded m

/-- `Frames.process_frame` (src/mpegi/metadata.py lines 424-430): look the
identifier up in `MAP`; if found and the named method exists, call it;
otherwise return `None`. -/
def process_frame (id : String) (fullBody : List Nat) : FrameOutcome :=
  match MAP.lookup id with
  | some (_, m) => if m ∈ definedMethods then invokeMethod m fullBody else .absent
  | none => .absent

/-! ## Metadata frame-header resolution (src/mpegi/metadata.py
`Metadata`).  In the shipped source `Metadata._bitrate`, `_sample_rate`
and `_padding` are empty stubs (lines 104-118) and only the tests
(`tests/test_metadata.py`) exercise the real resolution, so the resolution
itself is modelled from the specification. -/

/-- The channel modes (spec §4.5 / the `MP3_CHANNELS` table in
src/mpegi/g.py). -/
inductive Channel : Type
  | stereo
  | jointStereo
  | dual
  | mono
  deriving DecidableEq, Repr

/-- Outcome of bitrate resolution: a numeric kbps value, the BAD outcome
for reserved version/layer, or the explicit invalid bitrate/mode
combination error. -/
inductive BitrateOutcome : Type
  | ok (kbps : Nat)
  | bad
  | invalidCombo
  deriving DecidableEq, Repr

/-- Modelled from the spec: `Metadata._bitrate` is a stub in
src/mpegi/metadata.py, so the Layer II bitrate/channel-mode
cross-validation is taken from spec §4.5: "bitrates {32,48,56,80} require
Mono; bitrates {224,256,320,384} forbid Mono; bitrates
{64,96,112,128,160,192} are valid under any mode; a violation is reported
as an explicit invalid bitrate/mode combination error rather than a
silent value." -/
def layer2_crossvalidate (kbps : Nat) (mode : Channel) : BitrateOutcome :=
  if kbps ∈ [32, 48, 56, 80] then
    if mode = .mono then .ok kbps else .invalidCombo
  else if kbps ∈ [224, 256, 320, 384] then
    if mode = .mono then .invalidCombo else .ok kbps
  else .ok kbps

/-- Modelled from the spec: the Layer II/III frame length.
`Metadata._frame_len` (src/mpegi/metadata.py lines 130-131) is
`int((144 * self._bitrate() / self._sample_rate()) + self._padding())`
over stubbed resolvers, so the formula is taken from spec §4.5: "for
Layer II/III, `144 * bitrate_kbps * 1000 / sample_rate + padding`,
truncated to an integer."  Truncating division of non-negative values is
`Nat` division; the integral padding passes through the truncation. -/
def frame_len_l23 (bitrateKbps sampleRate padding : Nat) : Nat :=
  144 * bitrateKbps * 1000 / sampleRate + padding

/-! # Theorems -/

/-- C1 (counterexample): the 4-byte input `[0x80,0x00,0x02,0x01]` has a
byte with the high bit set, yet the synchsafe decoder yields the value
257 — the masked low-7-bit combination, identical to the decode of
`[0x00,0x00,0x02,0x01]` — instead of failing. -/
theorem synchsafe_high_bit_counterexample :
    decode_synchsafe_size 0x80 0x00 0x02 0x01 = 257 ∧
    decode_synchsafe_size 0x80 0x00 0x02 0x01 = decode_synchsafe_size 0x00 0x00 0x02 0x01 := by
  decide

/-- C1 (amended): `decode_synchsafe_size [0x00,0x00,0x02,0x01] = 257`, and
for every 4-byte input the decoder simply masks each byte to its low 7
bits and returns a value — its result is unchanged when every byte is
pre-masked with `0x7F`, so inputs with high bits set succeed rather than
fail. -/
theorem synchsafe_decode_masks :
    decode_synchsafe_size 0x00 0x00 0x02 0x01 = 257 ∧
    ∀ b0 b1 b2 b3 : Nat,
      decode_synchsafe_size (b0 &&& 0x7F) (b1 &&& 0x7F) (b2 &&& 0x7F) (b3 &&& 0x7F) =
        decode_synchsafe_size b0 b1 b2 b3 := by
  refine ⟨by decide, ?_⟩
  intro b0 b1 b2 b3
  simp [decode_synchsafe_size, Nat.and_assoc]

/-- C4 (counterexample): under the spec's own Layer II/III formula with
truncation, version MPEG1 / Layer III / bitrate 192 kbps / sample rate
44100 Hz / padding 0 gives frame length 626, not the claimed 627
(144·192·1000/44100 = 626.93…, truncated to 626). -/
theorem frame_len_example_counterexample :
    frame_len_l23 192 44100 0 = 626 ∧ frame_len_l23 192 44100 0 ≠ 627 := by
  decide

/-- C4 (amended): the Layer II/III frame byte length is
`144 * bitrate_kbps * 1000 / sample_rate + padding`, truncated to an
integer; for version MPEG1, Layer III, bitrate 192 kbps, sample rate
44100 Hz, padding 0 the computed frame length is 626 bytes. -/
theorem frame_len_l23_spec :
    (∀ k s p : Nat, frame_len_l23 k s p = 144 * k * 1000 / s + p) ∧
    frame_len_l23 192 44100 0 = 626 :=
  ⟨fun _ _ _ => rfl, by decide⟩

/-- C3: the spec-modelled Layer II bitrate/channel-mode cross-validation:
bitrates 32/48/56/80 with a non-Mono mode give the explicit invalid
combination outcome; bitrates 224/256/320/384 with Mono give it as well;
bitrates 64/96/112/128/160/192 resolve numerically under every mode; in
particular bitrate 32 with a non-Mono mode is the invalid-combination
error, not a silent value. -/
theorem layer2_crossvalidate_spec :
    ∀ (kbps : Nat) (mode : Channel),
      (kbps ∈ [32, 48, 56, 80] → mode ≠ Channel.mono →
        layer2_crossvalidate kbps mode = BitrateOutcome.invalidCombo) ∧
      (kbps ∈ [224, 256, 320, 384] → mode = Channel.mono →
        layer2_crossvalidate kbps mode = BitrateOutcome.invalidCombo) ∧
      (kbps ∈ [64, 96, 112, 128, 160, 192] →
        layer2_crossvalidate kbps mode = BitrateOutcome.ok kbps) ∧
      (kbps = 32 → mode ≠ Channel.mono →
        layer2_crossvalidate kbps mode = BitrateOutcome.invalidCombo) := by
  intro kbps mode
  refine ⟨?_, ?_, ?_, ?_⟩
  · intro h hm
    fin_cases h <;> simp [layer2_crossvalidate, hm]
  · intro h hm
    fin_cases h <;> simp [layer2_crossvalidate, hm]
  · intro h
    fin_cases h <;> simp [layer2_crossvalidate]
  · intro h hm
    subst h
    simp [layer2_crossvalidate, hm]

/-- C3 (witness): bitrate 32 with Stereo mode is reported as the invalid
bitrate/mode combination. -/
theorem layer2_crossvalidate_spec_witness :
    layer2_crossvalidate 32 Channel.stereo = BitrateOutcome.invalidCombo :=
  (layer2_crossvalidate_spec 32 Channel.stereo).1 (by decide) (by decide)

/-- C6: dispatch through `Frames.MAP` on a 6-byte record body: `MLLT`,
`SYTC` and `SYLT` produce the explicit `"Not Implemented"` marker, but
`ETCO` produces the absent result (Python `None`), because `MAP` names the
handler `_etco` while the class defines `_etoc` — so `hasattr` fails and
the recognized identifier is indistinguishable from an unknown one. -/
theorem etco_dispatch_divergence :
    process_frame "ETCO" [1, 0, 0, 0, 0, 0] = FrameOutcome.absent ∧
    process_frame "MLLT" [1, 0, 0, 0, 0, 0] = FrameOutcome.notImplemented ∧
    process_frame "SYTC" [1, 0, 0, 0, 0, 0] = FrameOutcome.notImplemented ∧
    process_frame "SYLT" [1, 0, 0, 0, 0, 0] = FrameOutcome.notImplemented ∧
    MAP.lookup "ETCO" = some ("EVENT_TIMING_CODES", "_etco") ∧
    "_etoc" ∈ definedMethods ∧ "_etco" ∉ definedMethods := by
  refine ⟨rfl, rfl, rfl, rfl, rfl, by decide, by decide⟩

/-- C7: the printable-ASCII pass of the COMM/USLT decoders is the identity
map — the conditional's two branches produce the same character — so the
non-printable code point 1 in the body text `[72, 1, 105]` is kept
unchanged rather than replaced with a placeholder. -/
theorem printable_pass_keeps_nonprintable :
    printable_pass [72, 1, 105] = [72, 1, 105] ∧
    ¬ (32 ≤ 1 ∧ (1 : Nat) ≤ 126) ∧
    ∀ s : List Nat, printable_pass s = s := by
  refine ⟨by decide, by decide, ?_⟩
  intro s
  simp [printable_pass]

set_option maxRecDepth 100000 in
/-- The 11-bit sync test of `frame_header`, characterized over byte-bounded
inputs: `sync11 & 0x7FF == 0x7FF` holds exactly when the first byte is 255
and the top 3 bits of the second byte are set. -/
theorem sync11_test_char :
    ∀ h0 < 256, ∀ t < 8, (((h0 <<< 3) ||| t) &&& 0x7FF = 0x7FF) ↔ (h0 = 255 ∧ t = 7) := by
  decide

set_option maxRecDepth 100000 in
/-- The 12-bit sync test of `frame_header`, characterized over
byte-bounded inputs: because the mask `0xFFE` drops the lowest of the 12
candidate bits, `sync12 & 0xFFE == 0xFFE` also holds exactly when the top
11 bits of the header are all set. -/
theorem sync12_test_char :
    ∀ h0 < 256, ∀ u < 16, (((h0 <<< 4) ||| u) &&& 0xFFE = 0xFFE) ↔ (h0 = 255 ∧ u / 2 = 7) := by
  decide

/-- `frame_sync` on bytes: it returns the 11-bit result `0x7FF` exactly
when the top 11 bits of the header are all 1, and the raised-exception
result otherwise; the 12-bit branch is unreachable. -/
theorem frame_sync_eq (h0 h1 : Nat) (b0 : h0 < 256) (b1 : h1 < 256) :
    frame_sync h0 h1 =
      if h0 = 255 ∧ h1 / 32 = 7 then SyncResult.sync11 0x7FF else SyncResult.noSync := by
  have e5 : h1 >>> 5 = h1 / 32 := by simp [Nat.shiftRight_eq_div_pow]
  have e4 : h1 >>> 4 = h1 / 16 := by simp [Nat.shiftRight_eq_div_pow]
  have l5 : h1 / 32 < 8 := by omega
  have l4 : h1 / 16 < 16 := by omega
  have c11 := sync11_test_char h0 b0 (h1 / 32) l5
  have c12 := sync12_test_char h0 b0 (h1 / 16) l4
  by_cases hc : h0 = 255 ∧ h1 / 32 = 7
  · have ht : ((h0 <<< 3) ||| (h1 / 32)) &&& 0x7FF = 0x7FF := c11.mpr hc
    obtain ⟨hh0, hh1⟩ := hc
    subst hh0
    simp only [frame_sync, e5, ht, if_pos, hh1]
    simp [hh1]
  · have n11 : ¬(((h0 <<< 3) ||| (h1 / 32)) &&& 0x7FF = 0x7FF) := fun h => hc (c11.mp h)
    have n12 : ¬(((h0 <<< 4) ||| (h1 / 16)) &&& 0xFFE = 0xFFE) := by
      intro h
      have h2 := c12.mp h
      exact hc ⟨h2.1, by omega⟩
    simp only [frame_sync, e5, e4]
    rw [if_neg n11, if_neg n12, if_neg hc]

/-- C2 (counterexample): the header `FF F0 00 00` has all top 12 bits set,
yet sync detection selects the 11-bit branch (the 11-bit test is tried
first and already succeeds), not the claimed 12-bit mode. -/
theorem frame_sync_12bit_counterexample :
    top12val 0xFF 0xF0 0 0 = 0xFFF ∧
    frame_sync 0xFF 0xF0 = SyncResult.sync11 0x7FF ∧
    syncIs12 (frame_sync 0xFF 0xF0) = false := by
  decide

/-- C2 (amended): for a 4-byte header, if the top 11 bits are all 1 the
detection selects 11-bit sync mode; if the top 12 bits are all 1 it
likewise selects 11-bit sync mode (the 11-bit test fires first, so the
12-bit branch is never taken); if neither candidate is all 1, detection
fails with the sync-not-found error. -/
theorem frame_sync_spec :
    ∀ h0 h1 h2 h3 : Nat, h0 < 256 → h1 < 256 → h2 < 256 → h3 < 256 →
      (top11val h0 h1 h2 h3 = 0x7FF → frame_sync h0 h1 = SyncResult.sync11 0x7FF) ∧
      (top12val h0 h1 h2 h3 = 0xFFF → frame_sync h0 h1 = SyncResult.sync11 0x7FF) ∧
      (top11val h0 h1 h2 h3 ≠ 0x7FF ∧ top12val h0 h1 h2 h3 ≠ 0xFFF →
        frame_sync h0 h1 = SyncResult.noSync) := by
  intro h0 h1 h2 h3 b0 b1 b2 b3
  have t11 : top11val h0 h1 h2 h3 = h0 * 8 + h1 / 32 := by
    simp only [top11val, header32]
    norm_num
    omega
  have t12 : top12val h0 h1 h2 h3 = h0 * 16 + h1 / 16 := by
    simp only [top12val, header32]
    norm_num
    omega
  rw [frame_sync_eq h0 h1 b0 b1]
  refine ⟨?_, ?_, ?_⟩
  · intro ht
    rw [if_pos (by omega : h0 = 255 ∧ h1 / 32 = 7)]
  · intro ht
    rw [if_pos (by omega : h0 = 255 ∧ h1 / 32 = 7)]
  · intro ⟨ht, _⟩
    rw [if_neg (by omega : ¬(h0 = 255 ∧ h1 / 32 = 7))]

/-- C2 (witness): the header `FF E0 00 00` (top 11 bits set, 12th clear)
selects the 11-bit sync branch with value `0x7FF`. -/
theorem frame_sync_spec_witness :
    frame_sync 255 224 = SyncResult.sync11 0x7FF :=
  (frame_sync_spec 255 224 0 0 (by decide) (by decide) (by decide) (by decide)).1 (by decide)

/-- C5 (counterexample): on a tag header with the extended-header bit set
(version 4.0, flag byte `0x40`), `get_v2` returns the bare
`"Extended Header"` marker, which carries none of the decoded header
fields — not a field set with the extended-header condition flagged. -/
theorem get_v2_ext_header_counterexample :
    get_v2 4 0 0x40 0 0 0 0 [] = V2Out.extHeader ∧
    v2CarriesFields (get_v2 4 0 0x40 0 0 0 0 []) = false ∧
    (0x40 &&& 0b01000000) >>> 6 = 1 := by
  refine ⟨rfl, rfl, by decide⟩

/-- C5 (amended): for every chunked-tag header with a supported version
(major < 5) whose flag byte has the extended-header bit set, `get_v2`
stops after the header fields and does not walk sub-records, but it
returns only the literal `"Extended Header"` marker, discarding the
decoded header fields. -/
theorem get_v2_ext_header_spec :
    ∀ (vMajor vMinor flags s6 s7 s8 s9 : Nat) (rest : List Nat),
      vMajor < 5 → (flags &&& 0b01000000) >>> 6 = 1 →
      get_v2 vMajor vMinor flags s6 s7 s8 s9 rest = V2Out.extHeader := by
  intro vMajor vMinor flags s6 s7 s8 s9 rest hv hf
  have h5 : ¬ 5 ≤ vMajor := by omega
  simp [get_v2, h5, hf]

/-- C5 (witness): the amended statement at the concrete header of the
counterexample input. -/
theorem get_v2_ext_header_spec_witness :
    get_v2 4 0 0x40 9 9 9 9 [1, 2, 3] = V2Out.extHeader :=
  get_v2_ext_header_spec 4 0 0x40 9 9 9 9 [1, 2, 3] (by decide) (by decide)

/-- C8: for every file of at least 3 bytes, `check_signature` returns
`true` exactly when the first 3 bytes are the ASCII literal `"ID3"`
(`0x49 0x44 0x33`), and in particular returns `false` for every such file
beginning with one of the two-byte frame-sync signatures `FF FB`, `FF F3`,
`FF F2` — a 3-byte read is never a substring of a 2-byte pattern. -/
theorem check_signature_spec :
    ∀ file : List Nat, 3 ≤ file.length →
      (check_signature file = true ↔ file.take 3 = [0x49, 0x44, 0x33]) ∧
      ((file.take 2 = [0xFF, 0xFB] ∨ file.take 2 = [0xFF, 0xF3] ∨ file.take 2 = [0xFF, 0xF2]) →
        check_signature file = false) := by
  intro file hlen
  match file with
  | a :: b :: c :: rest =>
    have hmain : check_signature (a :: b :: c :: rest) = true ↔
        [a, b, c] = [0x49, 0x44, 0x33] := by
      simp [check_signature, VALID_ISO, containsSub, leadMatch, List.take]
    refine ⟨by simpa [List.take] using hmain, ?_⟩
    intro hff
    rw [← Bool.not_eq_true, hmain]
    rcases hff with h2 | h2 | h2 <;> · simp [List.take] at h2; simp [h2.1]

/-- C8 (witness): a file starting with `"ID3"` is accepted and a file
starting with the frame-sync signature `FF FB` is rejected. -/
theorem check_signature_spec_witness :
    check_signature [0x49, 0x44, 0x33, 7] = true ∧
    check_signature [0xFF, 0xFB, 0x00] = false :=
  ⟨(check_signature_spec [0x49, 0x44, 0x33, 7] (by decide)).1.mpr (by decide),
   (check_signature_spec [0xFF, 0xFB, 0x00] (by decide)).2 (Or.inl (by decide))⟩

/-- C9: every `(frame_id, frame_body)` pair that the sub-record walk hands
to the `Frames` constructor has a non-empty body — zero-size records and
records with an empty body slice are skipped before dispatching — so the
constructor's read of the encoding-selector byte `body[0]` succeeds. -/
theorem walk_dispatch_nonempty :
    ∀ (tagBody : List Nat) (idx : Nat) (p : List Nat × List Nat),
      p ∈ (walkFrames tagBody idx).dispatched → (framesInit p.2).isSome = true := by
  intro tagBody
  have H : ∀ (n idx : Nat), tagBody.length - idx ≤ n →
      ∀ p : List Nat × List Nat,
        p ∈ (walkFrames tagBody idx).dispatched → (framesInit p.2).isSome = true := by
    intro n
    induction n with
    | zero =>
      intro idx hle p hp
      rw [walkFrames.eq_def] at hp
      rw [dif_neg (by omega : ¬ idx < tagBody.length)] at hp
      simp [WalkOut.dispatched] at hp
    | succ n ih =>
      intro idx hle p hp
      rw [walkFrames.eq_def] at hp
      by_cases hidx : idx < tagBody.length
      · rw [dif_pos hidx] at hp
        simp only [] at hp
        split at hp
        · simp [WalkOut.dispatched] at hp
        · split at hp
          · simp [WalkOut.dispatched] at hp
          · split at hp
            · exact ih (idx + 10) (by omega) p hp
            · split at hp
              · exact ih (idx + 10 + fromBytesBE
                  (List.take 4 (List.drop 4 (List.take 10 (List.drop idx tagBody)))))
                  (by omega) p hp
              · rename_i hsz hbody
                split at hp <;>
                · rename_i ds hds
                  simp only [WalkOut.dispatched, List.mem_cons] at hp
                  rcases hp with hp | hp
                  · subst hp
                    rcases hb : List.take (fromBytesBE (List.take 4 (List.drop 4
                        (List.take 10 (List.drop idx tagBody)))))
                        (List.drop (idx + 10) tagBody) with _ | ⟨e, rest⟩
                    · exact absurd hb hbody
                    · simp [framesInit, hb]
                  · have hmem : p ∈ (walkFrames tagBody (idx + 10 + fromBytesBE
                        (List.take 4 (List.drop 4 (List.take 10 (List.drop idx tagBody)))))).dispatched := by
                      rw [hds]
                      simpa [WalkOut.dispatched] using hp
                    exact ih _ (by omega) p hmem
      · rw [dif_neg hidx] at hp
        simp [WalkOut.dispatched] at hp
  intro idx
  exact H (tagBody.length - idx) idx le_rfl

/-- C9 (witness): a tag body holding one `TIT2` record of declared size 1
dispatches exactly the body `[48]`, on which the constructor's
encoding-selector read succeeds. -/
theorem walk_dispatch_nonempty_witness :
    (framesInit ([48] : List Nat)).isSome = true :=
  walk_dispatch_nonempty [84, 73, 84, 50, 0, 0, 0, 1, 0, 0, 48] 0 ([84, 73, 84, 50], [48])
    (by
      have h11 : walkFrames [84, 73, 84, 50, 0, 0, 0, 1, 0, 0, 48] 11 = WalkOut.finished [] := by
        rw [walkFrames.eq_def]
        norm_num
      have h0 : walkFrames [84, 73, 84, 50, 0, 0, 0, 1, 0, 0, 48] 0 =
          WalkOut.finished [([84, 73, 84, 50], [48])] := by
        rw [walkFrames.eq_def]
        norm_num [fromBytesBE, h11]
      rw [h0]
      simp [WalkOut.dispatched])

/-- C10: one iteration of the sub-record walk, whenever it continues,
moves the index forward by at least 10 bytes (exactly 10 for a zero-size
record, 10 plus the declared size otherwise), so the walk over any finite
tag body terminates. -/
theorem walk_next_advances :
    ∀ (tagBody : List Nat) (idx n : Nat),
      walkNext tagBody idx = some n → idx + 10 ≤ n := by
  intro tagBody idx n h
  unfold walkNext at h
  split at h
  · simp only [] at h
    split at h
    · exact absurd h (by simp)
    · split at h
      · exact absurd h (by simp)
      · split at h
        · simp only [Option.some.injEq] at h
          omega
        · simp only [Option.some.injEq] at h
          omega
  · exact absurd h (by simp)

/-- C10 (witness): on a 20-byte all-zero tag body the first iteration
reads a zero-size record and advances the index from 0 to 10. -/
theorem walk_next_advances_witness :
    walkNext (List.replicate 20 0) 0 = some 10 ∧ 0 + 10 ≤ 10 :=
  ⟨by decide, walk_next_advances (List.replicate 20 0) 0 10 (by decide)⟩

end Mpegi
